import Mathlib

/-!
Shallow embedding of `src/maxplotlib/subfigure/tikz_figure.py` (the diagram
model and TikZ serializer of the maxplotlib repository), together with
theorems settling the specification claims about it.

Python strings are Lean `String`s, kwargs dictionaries are insertion-ordered
association lists, the `layers` dict is an insertion-ordered association list
from `Int` keys to item buckets, and Python exceptions surface as `Except`
values.  Coordinates are modelled as `Int` (the claims under study concern
label bookkeeping, layer ordering and textual serialization, none of which
depend on fractional coordinates).
-/

namespace Maxplotlib

/-- A kwargs-style option bag: insertion-ordered `key = value` pairs
(`**kwargs` of `Node.__init__` / `Path.__init__`). -/
abbrev Options := List (String × String)

/-- The Python call `k.replace('_', ' ')` as used in the option serializers
(single-character replacement, so a plain character map). -/
def underscoreToSpace (k : String) : String :=
  ⟨k.data.map (fun c => if c = '_' then ' ' else c)⟩

/-- The Python call `sep.join(parts)`:  empty for `[]`, otherwise the first part
followed by `sep ++ part` for each further part. -/
def joinSep (sep : String) : List String → String
  | [] => ""
  | a :: as => as.foldl (fun acc x => acc ++ sep ++ x) a

/-- The joined option pairs of the serializers: underscores in each key are
rendered as spaces and the pairs are comma-joined,
shared by `Node.to_tikz` and `Path.to_tikz`. -/
def kvJoin (opts : Options) : String :=
  joinSep ", " (opts.map (fun kv => underscoreToSpace kv.1 ++ "=" ++ kv.2))

/-- Model of `class Node` (tikz_figure.py lines 13-41): a TikZ node.  `layer` has
default `0`; note that `TikzFigure.add_node` never forwards its own `layer`
argument to this constructor. -/
structure Node where
  x : Int
  y : Int
  label : String := ""
  content : String := ""
  layer : Int := 0
  options : Options := []
deriving DecidableEq, Repr

/-- Model of `Node.to_tikz` (lines 31-41): bracketed option clause when the joined
option string is non-empty, then the node statement. -/
def Node.to_tikz (n : Node) : String :=
  let options := kvJoin n.options
  let options := if options = "" then options else "[" ++ options ++ "]"
  "    \\node" ++ options ++ " (" ++ n.label ++ ") at (" ++ toString n.x ++
    ", " ++ toString n.y ++ ") \x7b" ++ n.content ++ "\x7d;\n"

/-- One entry of the node list of a `Path` as built by the list
comprehension in `TikzFigure.add_path`: a label string (from a `Node` or a `str` element), or —
for an element of any other type — the `ValueError` object that the
comprehension constructs *without raising* (`else ValueError(...)` is an
expression, so the exception object itself lands in the list).  Rendering an
exception object in an f-string yields its message. -/
inductive PathEntry where
  | label (s : String)
  | errObj (msg : String)
deriving DecidableEq, Repr

/-- Python `f"{entry}"` for a path-list entry. -/
def PathEntry.str : PathEntry → String
  | .label s => s
  | .errObj m => m

/-- Model of `class Path` (lines 43-73): a path connecting node labels.  `layer` has
default `0`; `TikzFigure.add_path` never forwards its own `layer` argument
to this constructor. -/
structure Path where
  nodes : List PathEntry
  path_actions : List String := []
  cycle : Bool := false
  layer : Int := 0
  options : Options := []
deriving DecidableEq, Repr

/-- Model of `Path.to_tikz` (lines 58-73): kwargs joined as `key=value`; if
`path_actions` is non-empty, its comma-join is prepended (with a `", "`
separator) to the kwargs join; bracketed when non-empty; the node labels are
chained with `--` as `(label.center)` and `-- cycle` is appended when
`cycle` is set. -/
def Path.to_tikz (p : Path) : String :=
  let options := kvJoin p.options
  let options :=
    if 0 < p.path_actions.length then joinSep ", " p.path_actions ++ ", " ++ options
    else options
  let options := if options = "" then options else "[" ++ options ++ "]"
  let path_str := joinSep " -- " (p.nodes.map (fun e => "(" ++ e.str ++ ".center)"))
  let path_str := if p.cycle then path_str ++ " -- cycle" else path_str
  "    \\draw" ++ options ++ " " ++ path_str ++ ";\n"

/-- An item of a layer bucket: the Python buckets hold `Node`s and `Path`s
interleaved. -/
inductive TikzItem where
  | node (n : Node)
  | path (p : Path)
deriving DecidableEq, Repr

/-- The call `item.to_tikz()` for a bucket item. -/
def TikzItem.to_tikz : TikzItem → String
  | .node n => n.to_tikz
  | .path p => p.to_tikz

/-- The layer buckets: the Python `self.layers` dict, modelled as an
association list in key-insertion order (keys are unique by construction). -/
abbrev Layers := List (Int × List TikzItem)

/-- Model of `if layer in self.layers: self.layers[layer].append(item)
else: self.layers[layer] = [item]` — append to the existing bucket, or add a
new key at the end (Python dicts iterate in key-insertion order). -/
def layersAdd : Layers → Int → TikzItem → Layers
  | [], k, it => [(k, [it])]
  | (k', items) :: rest, k, it =>
    if k' = k then (k', items ++ [it]) :: rest
    else (k', items) :: layersAdd rest k it

/-- Dict lookup `self.layers[k]` (empty when the key is absent; only used to state
theorems about bucket contents). -/
def layersGet : Layers → Int → List TikzItem
  | [], _ => []
  | (k', items) :: rest, k => if k' = k then items else layersGet rest k

/-- Model of the `class TikzFigure` state (lines 75-102).  The caption, description and
label metadata are `Option String` (Python `None` or a string). -/
structure TikzFigure where
  caption : Option String := none
  description : Option String := none
  label : Option String := none
  grid : Bool := false
  nodes : List Node := []
  paths : List Path := []
  layers : Layers := []
  node_counter : Nat := 0
deriving DecidableEq, Repr

/-- Python truthiness of an optional metadata string: `None` and `""` are
falsy, every other string is truthy. -/
def pyTruthy : Option String → Bool
  | none => false
  | some s => !(s == "")

/-- Model of `TikzFigure.add_node` (lines 104-126): synthesize `node{counter}` when
the label is omitted, build the `Node` (the `layer` argument is *not*
forwarded to the constructor), append it to `nodes` and to its layer bucket,
and post-increment the counter.  Returns the created node and the updated
figure. -/
def TikzFigure.add_node (f : TikzFigure) (x y : Int) (label : Option String := none)
    (content : String := "") (layer : Int := 0) (options : Options := []) :
    Node × TikzFigure :=
  let lbl := match label with
    | none => "node" ++ toString f.node_counter
    | some l => l
  let node : Node := { x := x, y := y, label := lbl, content := content, options := options }
  (node,
    { f with
        nodes := f.nodes ++ [node]
        layers := layersAdd f.layers layer (.node node)
        node_counter := f.node_counter + 1 })

/-- An element of the `nodes` argument of `add_path`: a `Node`, a string, or
a Python value of any other type (carrying the text that `type(node)`
renders to in the error message). -/
inductive NodeOrRef where
  | node (n : Node)
  | str (s : String)
  | other (typeText : String)
deriving DecidableEq, Repr

/-- The `nodes` argument of `add_path` as a Python value: a list, or a value
of any non-list type. -/
inductive NodesArg where
  | list (xs : List NodeOrRef)
  | nonList (typeText : String)
deriving DecidableEq, Repr

/-- A raised Python exception. -/
inductive PyError where
  | valueError (msg : String)
deriving DecidableEq, Repr

/-- Model of `TikzFigure.add_path` (lines 128-156): raise `ValueError` when `nodes`
is not a list; otherwise the comprehension replaces a `Node` by its label,
keeps a string verbatim, and for any other element *evaluates*
`ValueError(f"Invalid node type: {type(node)}")` — placing the exception
object in the list instead of raising it.  The `Path` is built without
forwarding the `layer` argument, appended to `paths` and to its layer
bucket. -/
def TikzFigure.add_path (f : TikzFigure) (nodes : NodesArg) (layer : Int := 0)
    (path_actions : List String := []) (cycle : Bool := false)
    (options : Options := []) : Except PyError (Path × TikzFigure) :=
  match nodes with
  | .nonList _ => .error (.valueError "nodes parameter must be a list of node names.")
  | .list xs =>
    let entries := xs.map (fun x =>
      match x with
      | .node n => PathEntry.label n.label
      | .str s => PathEntry.label s
      | .other t => PathEntry.errObj ("Invalid node type: " ++ t))
    let path : Path :=
      { nodes := entries, path_actions := path_actions, cycle := cycle, options := options }
    .ok (path,
      { f with
          paths := f.paths ++ [path]
          layers := layersAdd f.layers layer (.path path) })

/-- The `tikz_script` accumulation of `TikzFigure.generate_tikz`
(lines 165-184): the tikzpicture envelope, the optional grid line, then for
each layer bucket (in dict iteration order) a layer comment followed by each
per-item `to_tikz()` output in insertion order. -/
def TikzFigure.scene_script (f : TikzFigure) : String :=
  let s := "\\begin{tikzpicture}\n"
  let s := if f.grid then
    s ++ "    \\draw[step=1cm, gray, very thin] (-10,-10) grid (10,10);\n"
  else s
  let s := f.layers.foldl (fun acc kl =>
    kl.2.foldl (fun a it => a ++ it.to_tikz)
      (acc ++ "\n    % Layer " ++ toString kl.1 ++ "\n")) s
  s ++ "\\end{tikzpicture}"

/-- Model of `TikzFigure.generate_tikz` (lines 158-196): the scene script, wrapped in
a figure environment — with a caption clause when the caption is truthy and
a label clause when the label is truthy — exactly when any of caption,
description or label is truthy. -/
def TikzFigure.generate_tikz (f : TikzFigure) : String :=
  let tikz_script := f.scene_script
  if pyTruthy f.caption || pyTruthy f.description || pyTruthy f.label then
    let figure_env := "\\begin{figure}\n" ++ tikz_script ++ "\n"
    let figure_env := if pyTruthy f.caption then
      figure_env ++ "    \\caption\x7b" ++ f.caption.getD "" ++ "\x7d\n"
    else figure_env
    let figure_env := if pyTruthy f.label then
      figure_env ++ "    \\label\x7b" ++ f.label.getD "" ++ "\x7d\n"
    else figure_env
    figure_env ++ "\\end{figure}"
  else tikz_script

/-- The environment-determined result of the one `subprocess.run` (pdflatex,
non-interactive, check=True) call in `compile_pdf`: the exit code of the child process and its
captured standard-error text. -/
structure SubprocessRun where
  exitCode : Nat
  stderr : String
deriving DecidableEq, Repr

/-- How a `compile_pdf` call ends, as observed by the caller: either an
exception propagates out of the call, or the call returns `None` after
printing the given lines to standard output. -/
inductive CompileOutcome where
  | raisedToCaller (msg : String)
  | returnedNone (printed : List String)
deriving DecidableEq, Repr

/-- The observable effects of one `compile_pdf` call. -/
structure CompileResult where
  texDocument : String
  outcome : CompileOutcome
  tempdirRemoved : Bool
deriving DecidableEq, Repr

/-- Model of `TikzFigure.compile_pdf` (lines 198-245), with the subprocess result and
the existence of `figure.pdf` in the temporary directory as environment
parameters.  `check=True` makes a non-zero exit raise
`CalledProcessError`, which the `except` clause catches: it *prints* the
heading and the captured stderr and returns `None`.  When the expected
artifact is absent, a failure message is printed and the call returns.  The
`with tempfile.TemporaryDirectory()` block removes the temporary directory
on every one of these exit paths. -/
def TikzFigure.compile_pdf (f : TikzFigure) (run : SubprocessRun)
    (pdfExists : Bool) (filename : String := "output.pdf") : CompileResult :=
  let latex_document :=
    "\\documentclass[border=10pt]\x7bstandalone\x7d\n" ++
    "\\usepackage\x7btikz\x7d\n" ++
    "\\begin\x7bdocument\x7d\n" ++
    f.generate_tikz ++ "\n" ++
    "\\end\x7bdocument\x7d"
  if run.exitCode ≠ 0 then
    { texDocument := latex_document
      outcome := .returnedNone
        ["An error occurred while compiling the LaTeX document:", run.stderr]
      tempdirRemoved := true }
  else if pdfExists then
    { texDocument := latex_document
      outcome := .returnedNone
        ["PDF successfully compiled and saved as \x27" ++ filename ++ "\x27."]
      tempdirRemoved := true }
  else
    { texDocument := latex_document
      outcome := .returnedNone
        ["PDF compilation failed. Please check the LaTeX log for details."]
      tempdirRemoved := true }

/-! ## Helper lemmas -/

/-- Concatenation of a list of strings. -/
def strConcat (l : List String) : String := l.foldr (· ++ ·) ""

lemma strConcat_nil : strConcat [] = "" := rfl

lemma strConcat_cons (s : String) (l : List String) :
    strConcat (s :: l) = s ++ strConcat l := rfl

lemma foldl_append_gen {α : Type} (g : α → String) (l : List α) (init : String) :
    l.foldl (fun acc x => acc ++ g x) init = init ++ strConcat (l.map g) := by
  induction l generalizing init with
  | nil => simp [strConcat]
  | cons x xs ih =>
      simp only [List.foldl_cons, ih, List.map_cons, strConcat_cons,
        String.append_assoc]

lemma foldl_to_tikz (items : List TikzItem) (init : String) :
    items.foldl (fun a it => a ++ it.to_tikz) init
      = init ++ strConcat (items.map TikzItem.to_tikz) :=
  foldl_append_gen (fun it => it.to_tikz) items init

/-- The chunk a single layer bucket contributes to the scene script: the
layer comment, then each item in insertion order. -/
def layerChunk (kl : Int × List TikzItem) : String :=
  "\n    % Layer " ++ toString kl.1 ++ "\n" ++ strConcat (kl.2.map TikzItem.to_tikz)

lemma foldl_layers (ls : Layers) (init : String) :
    ls.foldl (fun acc kl =>
      kl.2.foldl (fun a it => a ++ it.to_tikz)
        (acc ++ "\n    % Layer " ++ toString kl.1 ++ "\n")) init
    = init ++ strConcat (ls.map layerChunk) := by
  have hstep : (fun (acc : String) (kl : Int × List TikzItem) =>
      kl.2.foldl (fun a it => a ++ it.to_tikz)
        (acc ++ "\n    % Layer " ++ toString kl.1 ++ "\n"))
      = fun acc kl => acc ++ layerChunk kl := by
    funext acc kl
    simp only [foldl_to_tikz, layerChunk, String.append_assoc]
  rw [hstep]
  exact foldl_append_gen layerChunk ls init

/-- The scene script decomposed: tikzpicture header (with the optional grid
line), the layer chunks in dict order, and the closing line. -/
lemma scene_script_eq (f : TikzFigure) :
    f.scene_script
      = (if f.grid then
          "\\begin{tikzpicture}\n" ++
            "    \\draw[step=1cm, gray, very thin] (-10,-10) grid (10,10);\n"
        else "\\begin{tikzpicture}\n") ++
        (strConcat (f.layers.map layerChunk) ++ "\\end{tikzpicture}") := by
  simp only [TikzFigure.scene_script]
  rw [foldl_layers, String.append_assoc]

/-- The scene script always starts with the tikzpicture header. -/
lemma scene_script_head (f : TikzFigure) :
    ∃ t, f.scene_script = "\\begin{tikzpicture}\n" ++ t := by
  rw [scene_script_eq]
  by_cases hg : f.grid
  · rw [if_pos hg, String.append_assoc]
    exact ⟨_, rfl⟩
  · rw [if_neg hg]
    exact ⟨_, rfl⟩

/-- A string starting with the figure-envelope header never equals one
starting with the tikzpicture header. -/
lemma figure_ne_scene (s t : String) :
    "\\begin{figure}\n" ++ s ≠ "\\begin{tikzpicture}\n" ++ t := by
  intro h
  have h2 := congrArg (fun x : String => x.data[7]?) h
  simp only [String.data_append] at h2
  rw [List.getElem?_append_left (by decide),
    List.getElem?_append_left (by decide)] at h2
  exact absurd h2 (by decide)

lemma joinSep_cons_ex (sep a : String) (as : List String) :
    ∃ t, joinSep sep (a :: as) = a ++ t := by
  suffices h : ∀ (as : List String) (init : String),
      ∃ t, as.foldl (fun acc x => acc ++ sep ++ x) init = init ++ t by
    exact h as a
  intro as
  induction as with
  | nil => exact fun init => ⟨"", (String.append_empty init).symm⟩
  | cons x xs ih =>
      intro init
      obtain ⟨t, ht⟩ := ih (init ++ sep ++ x)
      exact ⟨sep ++ (x ++ t), by
        rw [List.foldl_cons, ht, String.append_assoc, String.append_assoc]⟩

lemma append_ne_empty_mid (a b c : String) (hb : b.length ≠ 0) :
    a ++ b ++ c ≠ "" := by
  intro he
  have h1 := congrArg String.length he
  simp only [String.length_append] at h1
  have h0 : String.length "" = 0 := rfl
  omega

lemma kvJoin_cons_ne_empty (kv : String × String) (rest : Options) :
    kvJoin (kv :: rest) ≠ "" := by
  obtain ⟨t, ht⟩ := joinSep_cons_ex ", " (underscoreToSpace kv.1 ++ "=" ++ kv.2)
    (rest.map (fun kv => underscoreToSpace kv.1 ++ "=" ++ kv.2))
  intro he
  rw [kvJoin, List.map_cons, ht, String.append_assoc] at he
  exact append_ne_empty_mid (underscoreToSpace kv.1) "=" (kv.2 ++ t) (by decide) he

/-! ## Claims -/

/-- C2: the claim says `add_path` raises for any element that is neither a
`Node` nor a string.  In the code the list comprehension only *evaluates*
`ValueError(...)` for such an element, so the call returns a constructed
`Path` holding the exception object instead of raising: evaluating
`add_path` on a list holding one element of a non-Node non-string type
yields `Except.ok`, never `Except.error`. -/
theorem C2_invalid_element_constructs_path :
    ∃ p f2,
      TikzFigure.add_path {} (.list [.other "int"]) 0 [] false []
        = .ok (p, f2)
      ∧ p.nodes = [.errObj "Invalid node type: int"]
      ∧ f2.paths = [p] := by
  exact ⟨_, _, rfl, rfl, rfl⟩

/-- C3 counterexample: `add_connector(["X","Y"])` on a fresh figure with no
points at all succeeds — the strings are stored verbatim, nothing is
resolved and no `InvalidArgument`/`ValueError` is raised, contradicting the
claim that unresolvable labels fail eagerly at call time. -/
theorem C3_counterexample :
    TikzFigure.add_path {} (.list [.str "X", .str "Y"]) 0 [] false []
      = .ok ({ nodes := [.label "X", .label "Y"] },
          { paths := [{ nodes := [.label "X", .label "Y"] }],
            layers := [(0, [.path { nodes := [.label "X", .label "Y"] }])] }) := by
  rfl

/-- C3 amended: string elements of `add_path` are never resolved against the
previously added points; they are kept verbatim as labels in the constructed
`Path`, and the call succeeds regardless of whether any point with that
label exists. -/
theorem C3_strings_kept_verbatim (f : TikzFigure) (ss : List String) (L : Int)
    (acts : List String) (cyc : Bool) (opts : Options) :
    ∃ p f2, f.add_path (.list (ss.map .str)) L acts cyc opts = .ok (p, f2)
      ∧ p.nodes = ss.map PathEntry.label := by
  refine ⟨_, _, rfl, ?_⟩
  simp [TikzFigure.add_path, List.map_map, Function.comp_def]

/-- C4 counterexample: when the subprocess exits non-zero, `compile_pdf`
catches `CalledProcessError`, prints the heading and the captured stderr,
and returns `None` — no `CompileError` is raised to the caller (the
temporary-directory cleanup, by contrast, does hold). -/
theorem C4_counterexample :
    (TikzFigure.compile_pdf {} ⟨1, "latex diagnostic text"⟩ false "output.pdf").outcome
      = .returnedNone
          ["An error occurred while compiling the LaTeX document:",
           "latex diagnostic text"]
    ∧ (TikzFigure.compile_pdf {} ⟨1, "latex diagnostic text"⟩ false
        "output.pdf").tempdirRemoved = true := by
  exact ⟨rfl, rfl⟩

/-- C4 amended: on a non-zero subprocess exit `compile_pdf` prints the error
heading and the captured stderr and returns `None`; on a missing output
artifact it prints a failure message and returns `None`; no exception
reaches the caller on either path, and the temporary directory is removed
regardless of outcome. -/
theorem C4_errors_printed_not_raised (f : TikzFigure) (run : SubprocessRun)
    (pdfExists : Bool) (filename : String) :
    (run.exitCode ≠ 0 →
      (f.compile_pdf run pdfExists filename).outcome
        = .returnedNone
            ["An error occurred while compiling the LaTeX document:", run.stderr])
    ∧ (run.exitCode = 0 → pdfExists = false →
      (f.compile_pdf run pdfExists filename).outcome
        = .returnedNone
            ["PDF compilation failed. Please check the LaTeX log for details."])
    ∧ (∀ msg, (f.compile_pdf run pdfExists filename).outcome ≠ .raisedToCaller msg)
    ∧ (f.compile_pdf run pdfExists filename).tempdirRemoved = true := by
  refine ⟨fun h => ?_, fun h hp => ?_, fun msg => ?_, ?_⟩
  · simp [TikzFigure.compile_pdf, h]
  · simp [TikzFigure.compile_pdf, h, hp]
  · by_cases h : run.exitCode ≠ 0
    · simp [TikzFigure.compile_pdf, h]
    · cases hp : pdfExists <;> simp [TikzFigure.compile_pdf, h, hp]
  · by_cases h : run.exitCode ≠ 0
    · simp [TikzFigure.compile_pdf, h]
    · cases hp : pdfExists <;> simp [TikzFigure.compile_pdf, h, hp]

/-- C4 witness: the amended behavior evaluated at concrete inputs (exit code
2 with captured stderr; exit 0 with a missing artifact). -/
theorem C4_errors_printed_not_raised_witness :
    (TikzFigure.compile_pdf {} ⟨2, "err text"⟩ true "o.pdf").outcome
      = .returnedNone
          ["An error occurred while compiling the LaTeX document:", "err text"]
    ∧ (TikzFigure.compile_pdf {} ⟨0, ""⟩ false "o.pdf").outcome
      = .returnedNone
          ["PDF compilation failed. Please check the LaTeX log for details."] :=
  ⟨(C4_errors_printed_not_raised {} ⟨2, "err text"⟩ true "o.pdf").1 (by decide),
   (C4_errors_printed_not_raised {} ⟨0, ""⟩ false "o.pdf").2.1 rfl rfl⟩

lemma layersGet_layersAdd (ls : Layers) (k : Int) (it : TikzItem) :
    layersGet (layersAdd ls k it) k = layersGet ls k ++ [it] := by
  induction ls with
  | nil => simp [layersAdd, layersGet]
  | cons hd rest ih =>
      obtain ⟨k2, items⟩ := hd
      by_cases hk : k2 = k
      · simp [layersAdd, layersGet, hk]
      · simp [layersAdd, layersGet, hk, ih]

/-- C10: the `layer` argument of `add_node` / `add_path` is not forwarded to
the entity constructor — the returned `Node` or `Path` keeps the default
`layer = 0` for every argument value `L` — and only the placement of the
entity at the end of the layer-`L` bucket reflects the argument. -/
theorem C10_layer_argument_not_stored (f : TikzFigure) (x y : Int)
    (lbl : Option String) (content : String) (L : Int) (opts : Options)
    (xs : List NodeOrRef) (acts : List String) (cyc : Bool) (popts : Options) :
    (f.add_node x y lbl content L opts).1.layer = 0
    ∧ layersGet (f.add_node x y lbl content L opts).2.layers L
        = layersGet f.layers L ++ [.node (f.add_node x y lbl content L opts).1]
    ∧ ∃ p f2, f.add_path (.list xs) L acts cyc popts = .ok (p, f2)
        ∧ p.layer = 0
        ∧ layersGet f2.layers L = layersGet f.layers L ++ [.path p] := by
  refine ⟨rfl, ?_, _, _, rfl, rfl, ?_⟩
  · exact layersGet_layersAdd f.layers L _
  · exact layersGet_layersAdd f.layers L _

/-- The figure of claim C1: a fresh model with point A added to layer 2,
then B to layer 0, then C to layer 1. -/
def figC1 : TikzFigure :=
  (((TikzFigure.add_node {} 0 0 (some "A") "" 2 []).2.add_node
      1 0 (some "B") "" 0 []).2.add_node 2 0 (some "C") "" 1 []).2

/-- C1 counterexample: with points A(layer 2), B(layer 0), C(layer 1) added
in that call order, `generate_tikz` renders A, then B, then C (the layers
dict iterates in key-insertion order 2, 0, 1) — not the numeric-ascending
order B, C, A the claim requires. -/
theorem C1_counterexample :
    figC1.generate_tikz
      = "\\begin{tikzpicture}\n" ++
          "\n    % Layer 2\n" ++ "    \\node (A) at (0, 0) \x7b\x7d;\n" ++
          "\n    % Layer 0\n" ++ "    \\node (B) at (1, 0) \x7b\x7d;\n" ++
          "\n    % Layer 1\n" ++ "    \\node (C) at (2, 0) \x7b\x7d;\n" ++
          "\\end{tikzpicture}"
    ∧ figC1.generate_tikz
      ≠ "\\begin{tikzpicture}\n" ++
          "\n    % Layer 0\n" ++ "    \\node (B) at (1, 0) \x7b\x7d;\n" ++
          "\n    % Layer 1\n" ++ "    \\node (C) at (2, 0) \x7b\x7d;\n" ++
          "\n    % Layer 2\n" ++ "    \\node (A) at (0, 0) \x7b\x7d;\n" ++
          "\\end{tikzpicture}"
    ∧ figC1.layers.map Prod.fst = [2, 0, 1] := by
  refine ⟨by rfl, by decide, by rfl⟩

/-- C1 amended: for a fresh model with points added to layers `[2, 0, 1]` in
that call order, the item ordering of the `generate_tikz` output follows the
first-insertion order of the layer keys — the layer-2 item renders first,
then the layer-0 item, then the layer-1 item. -/
theorem C1_layer_order_first_insertion (x1 y1 x2 y2 x3 y3 : Int)
    (A B C cA cB cC : String) (oA oB oC : Options) :
    ((((TikzFigure.add_node {} x1 y1 (some A) cA 2 oA).2.add_node
        x2 y2 (some B) cB 0 oB).2.add_node x3 y3 (some C) cC 1 oC).2).generate_tikz
      = "\\begin{tikzpicture}\n" ++
          "\n    % Layer " ++ "2" ++ "\n" ++ (Node.mk x1 y1 A cA 0 oA).to_tikz ++
          "\n    % Layer " ++ "0" ++ "\n" ++ (Node.mk x2 y2 B cB 0 oB).to_tikz ++
          "\n    % Layer " ++ "1" ++ "\n" ++ (Node.mk x3 y3 C cC 0 oC).to_tikz ++
          "\\end{tikzpicture}" := by
  have h2 : toString (2 : Int) = "2" := rfl
  have h0 : toString (0 : Int) = "0" := rfl
  have h1 : toString (1 : Int) = "1" := rfl
  simp only [TikzFigure.generate_tikz, TikzFigure.scene_script,
    TikzFigure.add_node, layersAdd, pyTruthy, Bool.or_self, Bool.false_eq_true,
    List.foldl_cons, List.foldl_nil, TikzItem.to_tikz, if_false, ite_false]
  norm_num
  simp only [h0, h1, h2, String.append_assoc]

/-- The argument tuple of one `add_node` call (everything a caller can pass:
coordinates, optional label, content, layer, style options). -/
structure AddNodeCall where
  x : Int := 0
  y : Int := 0
  label : Option String := none
  content : String := ""
  layer : Int := 0
  options : Options := []

/-- Apply a sequence of `add_node` calls to a figure. -/
def applyCalls (f : TikzFigure) : List AddNodeCall → TikzFigure
  | [] => f
  | c :: cs => applyCalls (f.add_node c.x c.y c.label c.content c.layer c.options).2 cs

/-- The labels a call sequence should produce when the counter starts at
`counter`: the explicit label when one is given, `node{counter}` otherwise,
with the counter advancing by one on *every* call. -/
def expectedLabels (counter : Nat) : List AddNodeCall → List String
  | [] => []
  | c :: cs =>
      (match c.label with
       | none => "node" ++ toString counter
       | some l => l) :: expectedLabels (counter + 1) cs

lemma applyCalls_spec (cs : List AddNodeCall) (f : TikzFigure) :
    (applyCalls f cs).node_counter = f.node_counter + cs.length
    ∧ (applyCalls f cs).nodes.map Node.label
        = f.nodes.map Node.label ++ expectedLabels f.node_counter cs := by
  induction cs generalizing f with
  | nil => simp [applyCalls, expectedLabels]
  | cons c cs ih =>
      obtain ⟨ih1, ih2⟩ := ih (f.add_node c.x c.y c.label c.content c.layer c.options).2
      constructor
      · rw [applyCalls, ih1]
        simp [TikzFigure.add_node]
        omega
      · rw [applyCalls, ih2]
        simp only [TikzFigure.add_node, expectedLabels, List.map_append,
          List.map_cons, List.map_nil, List.append_assoc, List.singleton_append]
        rfl

lemma expectedLabels_all_none (k : Nat) (cs : List AddNodeCall)
    (h : ∀ c ∈ cs, c.label = none) :
    expectedLabels k cs
      = (List.range cs.length).map (fun i => "node" ++ toString (k + i)) := by
  induction cs generalizing k with
  | nil => simp [expectedLabels]
  | cons c cs ih =>
      rw [expectedLabels, h c (by simp), ih (k + 1) (fun c hc => h c (by simp [hc]))]
      rw [List.length_cons, List.range_succ_eq_map, List.map_cons, List.map_map]
      refine congrArg₂ _ (by simp) ?_
      refine List.map_congr_left fun i _ => ?_
      simp only [Function.comp_apply]
      exact congrArg (fun m => "node" ++ toString m) (by omega)

/-- C5: a sequence of `add_node` calls that all omit the label, whatever
their coordinates, contents, layers and options, produces the labels
`node0, node1, node2, ...` in call order. -/
theorem C5_auto_labels_in_call_order
    (ops : List (Int × Int × String × Int × Options)) :
    (applyCalls {} (ops.map (fun o =>
        { x := o.1, y := o.2.1, label := none, content := o.2.2.1,
          layer := o.2.2.2.1, options := o.2.2.2.2 }))).nodes.map Node.label
      = (List.range ops.length).map (fun i => "node" ++ toString i) := by
  have h := (applyCalls_spec (ops.map (fun o =>
      { x := o.1, y := o.2.1, label := none, content := o.2.2.1,
        layer := o.2.2.2.1, options := o.2.2.2.2 })) {}).2
  rw [expectedLabels_all_none 0 _ (by
    intro c hc
    simp only [List.mem_map] at hc
    obtain ⟨o, _, rfl⟩ := hc
    rfl)] at h
  simpa using h

/-- C9: every `add_node` call — with or without an explicit label —
increments the counter by exactly one, so after any mixed sequence the
omitted-label calls receive `node{i}` where `i` is the zero-based position
of the call among *all* `add_node` calls (explicit-label calls consume
indices). -/
theorem C9_counter_always_increments (f : TikzFigure) (x y : Int)
    (lbl : Option String) (content : String) (L : Int) (opts : Options)
    (cs : List AddNodeCall) :
    (f.add_node x y lbl content L opts).2.node_counter = f.node_counter + 1
    ∧ (applyCalls {} cs).nodes.map Node.label = expectedLabels 0 cs := by
  refine ⟨rfl, ?_⟩
  simpa using (applyCalls_spec cs {}).2

/-- C6: `generate_tikz` wraps the scene script in a figure envelope —
emitting a caption clause exactly when the caption is truthy and a
cross-reference label clause exactly when the label is truthy — if and only
if at least one of caption, description or label is truthy; with none of
the three set, the output is the bare scene script. -/
theorem C6_figure_envelope_iff (f : TikzFigure) :
    (f.generate_tikz
      = if pyTruthy f.caption || pyTruthy f.description || pyTruthy f.label then
          "\\begin{figure}\n" ++ f.scene_script ++ "\n" ++
            (if pyTruthy f.caption then
              "    \\caption\x7b" ++ f.caption.getD "" ++ "\x7d\n" else "") ++
            (if pyTruthy f.label then
              "    \\label\x7b" ++ f.label.getD "" ++ "\x7d\n" else "") ++
            "\\end{figure}"
        else f.scene_script)
    ∧ ((∃ rest, f.generate_tikz = "\\begin{figure}\n" ++ rest)
        ↔ (pyTruthy f.caption || pyTruthy f.description || pyTruthy f.label) = true) := by
  have hscene : (pyTruthy f.caption || pyTruthy f.description || pyTruthy f.label) = false →
      f.generate_tikz = f.scene_script := by
    intro h
    simp [TikzFigure.generate_tikz, h]
  have hmain : f.generate_tikz
      = if pyTruthy f.caption || pyTruthy f.description || pyTruthy f.label then
          "\\begin{figure}\n" ++ f.scene_script ++ "\n" ++
            (if pyTruthy f.caption then
              "    \\caption\x7b" ++ f.caption.getD "" ++ "\x7d\n" else "") ++
            (if pyTruthy f.label then
              "    \\label\x7b" ++ f.label.getD "" ++ "\x7d\n" else "") ++
            "\\end{figure}"
        else f.scene_script := by
    cases hM : (pyTruthy f.caption || pyTruthy f.description || pyTruthy f.label) with
    | false => simpa [hM] using hscene hM
    | true =>
        simp only [TikzFigure.generate_tikz, hM]
        by_cases hc : pyTruthy f.caption = true <;>
          by_cases hl : pyTruthy f.label = true <;>
            simp only [hc, hl, if_true, ite_true, if_false, ite_false,
              Bool.false_eq_true, String.append_assoc, String.append_empty,
              eq_self_iff_true, Bool.true_eq_false, not_false_iff]
  refine ⟨hmain, ?_, ?_⟩
  · rintro ⟨rest, hr⟩
    by_contra hM
    have hM2 : (pyTruthy f.caption || pyTruthy f.description || pyTruthy f.label) = false := by
      simpa using hM
    rw [hscene hM2] at hr
    obtain ⟨t, ht⟩ := scene_script_head f
    rw [ht] at hr
    exact figure_ne_scene rest t hr.symm
  · intro hM
    rw [hmain, if_pos hM]
    exact ⟨f.scene_script ++ ("\n" ++
      ((if pyTruthy f.caption then
          "    \\caption\x7b" ++ f.caption.getD "" ++ "\x7d\n" else "") ++
        ((if pyTruthy f.label then
          "    \\label\x7b" ++ f.label.getD "" ++ "\x7d\n" else "") ++
          "\\end{figure}"))), by simp only [String.append_assoc]⟩

/-- C6 witness: a figure with only a caption renders the figure envelope
around the scene envelope with a caption clause; a figure with no metadata
renders the bare scene envelope. -/
theorem C6_figure_envelope_witness :
    ({ caption := some "Fig" } : TikzFigure).generate_tikz
      = "\\begin{figure}\n\\begin{tikzpicture}\n\\end{tikzpicture}\n    \\caption\x7bFig\x7d\n\\end{figure}"
    ∧ ({} : TikzFigure).generate_tikz = "\\begin{tikzpicture}\n\\end{tikzpicture}" :=
  ⟨((C6_figure_envelope_iff { caption := some "Fig" }).1).trans (by decide),
   ((C6_figure_envelope_iff {}).1).trans (by decide)⟩

/-- C7: the option clause of a point is the bracketed comma-join of
`key=value` pairs (underscores in keys rendered as spaces, `kvJoin`),
omitted entirely when there are no options; the option clause of a
connector with path actions is the bracketed concatenation of the raw
`path_actions` directives followed by `", "` and the joined `key=value`
pairs, in front of the chained draw statement. -/
theorem C7_option_clause_layout (x y : Int) (lbl cont : String) (lay : Int)
    (kv : String × String) (rest : Options) (ns : List PathEntry) (a : String)
    (acts : List String) (cyc : Bool) (play : Int) (popts : Options) :
    (Node.mk x y lbl cont lay (kv :: rest)).to_tikz
      = "    \\node" ++ "[" ++ kvJoin (kv :: rest) ++ "]" ++ " (" ++ lbl ++
          ") at (" ++ toString x ++ ", " ++ toString y ++ ") \x7b" ++ cont ++ "\x7d;\n"
    ∧ (Node.mk x y lbl cont lay []).to_tikz
      = "    \\node" ++ " (" ++ lbl ++ ") at (" ++ toString x ++ ", " ++
          toString y ++ ") \x7b" ++ cont ++ "\x7d;\n"
    ∧ (Path.mk ns (a :: acts) cyc play popts).to_tikz
      = "    \\draw" ++ "[" ++ (joinSep ", " (a :: acts) ++ ", " ++ kvJoin popts) ++
          "]" ++ " " ++
          (if cyc then
            joinSep " -- " (ns.map (fun e => "(" ++ e.str ++ ".center)")) ++ " -- cycle"
          else
            joinSep " -- " (ns.map (fun e => "(" ++ e.str ++ ".center)"))) ++ ";\n" := by
  refine ⟨?_, ?_, ?_⟩
  · simp only [Node.to_tikz]
    rw [if_neg (kvJoin_cons_ne_empty kv rest)]
    simp only [String.append_assoc]
  · simp only [Node.to_tikz]
    rw [if_pos (by decide : kvJoin [] = ""), (by decide : kvJoin [] = "")]
    simp only [String.empty_append, String.append_empty, String.append_assoc]
  · simp only [Path.to_tikz, List.length_cons]
    rw [if_pos (Nat.succ_pos acts.length),
      if_neg (append_ne_empty_mid (joinSep ", " (a :: acts)) ", " (kvJoin popts)
        (by decide))]
    simp only [String.append_assoc]

/-- C7 witness: the clause layout evaluated at one concrete point (an option
key with an underscore) and one concrete connector (one raw path action plus
one style option). -/
theorem C7_option_clause_layout_witness :
    (Node.mk 1 2 "A" "hi" 0 [("line_width", "2pt")]).to_tikz
      = "    \\node[line width=2pt] (A) at (1, 2) \x7bhi\x7d;\n"
    ∧ (Path.mk [.label "A", .label "B"] ["rounded corners"] false 0
        [("color", "blue")]).to_tikz
      = "    \\draw[rounded corners, color=blue] (A.center) -- (B.center);\n" := by
  have h := C7_option_clause_layout 1 2 "A" "hi" 0 ("line_width", "2pt") []
    [.label "A", .label "B"] "rounded corners" [] false 0 [("color", "blue")]
  exact ⟨h.1.trans (by decide), h.2.2.trans (by decide)⟩

/-- C8: a connector over points A, B, C with `cycle = true` chains the three
points in order and appends the TikZ closing segment `-- cycle` (which
returns to the first point, A) after C; with `cycle = false` the same chain
is emitted without the closing segment. -/
theorem C8_cycle_closes_path (a b c : String) :
    (Path.mk [.label a, .label b, .label c] [] true 0 []).to_tikz
      = "    \\draw" ++ " " ++ ("(" ++ a ++ ".center)" ++ " -- " ++
          ("(" ++ b ++ ".center)") ++ " -- " ++ ("(" ++ c ++ ".center)") ++
          " -- cycle") ++ ";\n"
    ∧ (Path.mk [.label a, .label b, .label c] [] false 0 []).to_tikz
      = "    \\draw" ++ " " ++ ("(" ++ a ++ ".center)" ++ " -- " ++
          ("(" ++ b ++ ".center)") ++ " -- " ++ ("(" ++ c ++ ".center)")) ++ ";\n" := by
  constructor
  · simp only [Path.to_tikz, PathEntry.str, List.map_cons, List.map_nil, kvJoin,
      joinSep, List.foldl_cons, List.foldl_nil, List.length_nil]
    rw [if_neg (by decide : ¬ (0 : Nat) < 0), if_pos (by decide : ("" : String) = "")]
    rw [if_pos trivial]
    simp only [String.append_empty, String.append_assoc]
  · simp only [Path.to_tikz, PathEntry.str, List.map_cons, List.map_nil, kvJoin,
      joinSep, List.foldl_cons, List.foldl_nil, List.length_nil]
    rw [if_neg (by decide : ¬ (0 : Nat) < 0), if_pos (by decide : ("" : String) = "")]
    rw [if_neg (by decide : ¬ false = true)]
    simp only [String.append_empty, String.append_assoc]

end Maxplotlib
